import Mathlib

/-
Shallow embedding of src/app.py (ASKDB): a single-file chat front end that
turns natural-language questions into SQL via a hosted model, executes the
SQL, and scores the result.

Modelling conventions:
- Python exceptions are modelled with `Except` / an explicit `PyError` type
  carrying `str(e)`; a Lean function with a plain (non-`Except`) result type
  models Python code that cannot raise.
- Python floats are modelled exactly: `PyFloat` is a rational together with
  the special values nan, inf and -inf; decimal literals denote their exact
  rational value. Python comparisons (always false on nan) and the two-argument
  `min`/`max` builtins (which keep the first argument when the comparison with
  the second is false) are modelled by `pyLt`, `pyMin`, `pyMax`.
- External behaviour (the GROQ_API_KEY environment variable, the two hosted
  model invocations, the database driver) is collected in an `Oracle`
  structure; theorems quantify over every oracle. Python's builtin `float()`
  applied to the model's reply is also oracle-supplied (`parseFloat`), since
  its concrete result is a binary double: `none` models ValueError, and the
  real parser — which maps every finite double to its exact rational value and
  the strings accepted as nan/inf to the special values — is one instance.
- Each call to an external service is recorded as an `Event`, so theorems can
  speak about which calls a turn makes and in which order.
-/

/-- Chat messages of the transcript: langchain's AIMessage / HumanMessage,
reduced to their content (src/app.py lines 125-128, 170, 185). -/
inductive Msg where
  | ai (content : String)
  | human (content : String)
deriving DecidableEq, Repr

/-- One external call made while answering a turn. -/
inductive Event where
  | llmSqlCall (schema : String) (chatHistory : List Msg) (question : String)
  | dbRunCall (sql : String)
  | llmScoreCall (response : String) (query : String) (dbResponse : String)
deriving DecidableEq, Repr

/-- Python exceptions that app.py raises or catches, carrying `str(e)`. -/
inductive PyError where
  | environmentError (msg : String)
  | connectionError (msg : String)
  | valueError (msg : String)
  | nameError (msg : String)
  | other (msg : String)
deriving DecidableEq, Repr

/-- Python `str(e)` of a single-argument exception: its message. -/
def PyError.str : PyError → String
  | .environmentError m => m
  | .connectionError m => m
  | .valueError m => m
  | .nameError m => m
  | .other m => m

instance instDecEqExcept {ε α : Type} [DecidableEq ε] [DecidableEq α] :
    DecidableEq (Except ε α) := fun x y =>
  match x, y with
  | .ok a, .ok b => if h : a = b then isTrue (by rw [h]) else isFalse (by simp [h])
  | .ok _, .error _ => isFalse (by simp)
  | .error _, .ok _ => isFalse (by simp)
  | .error a, .error b =>
    if h : a = b then isTrue (by rw [h]) else isFalse (by simp [h])

/-- A Python float value, modelled exactly: a rational, or nan / inf / -inf. -/
inductive PyFloat where
  | finite (q : ℚ)
  | nan
  | inf
  | ninf
deriving DecidableEq, Repr

/-- Python `<` on floats: standard order on numbers, every comparison with nan
is false. -/
def pyLt : PyFloat → PyFloat → Bool
  | .finite a, .finite b => decide (a < b)
  | .finite _, .inf => true
  | .ninf, .finite _ => true
  | .ninf, .inf => true
  | _, _ => false

/-- Python builtin `max(a, b)`: starts from `a` and replaces it by `b` only
when `b > a`; in particular `max(nan, x) = nan` and `max(x, nan) = x`. -/
def pyMax (a b : PyFloat) : PyFloat :=
  if pyLt a b then b else a

/-- Python builtin `min(a, b)`: starts from `a` and replaces it by `b` only
when `b < a`; in particular `min(nan, x) = nan` and `min(x, nan) = x`. -/
def pyMin (a b : PyFloat) : PyFloat :=
  if pyLt b a then b else a

/-- Whether a PyFloat is a number lying in the closed interval [0, 1]. -/
def inUnitB : PyFloat → Bool
  | .finite q => decide ((0 : ℚ) ≤ q) && decide (q ≤ (1 : ℚ))
  | _ => false

/-- The external world of app.py: the GROQ_API_KEY environment variable, the
schema text `db.get_table_info()`, the SQL-generation model call (a function of
the schema, the chat history and the question, i.e. the prompt inputs of lines
26-53), `db.run`, the scoring model call (a function of the three strings
interpolated into the scoring prompt, lines 67-83), the builtin `float()` on
the stripped reply (line 85), and `SQLDatabase.from_uri` (line 21). `Except
String` results carry `str` of the raised exception. -/
structure Oracle where
  apiKey : Option String
  tableInfo : String
  llmSql : String → List Msg → String → Except String String
  dbRun : String → Except String String
  llmScore : String → String → String → Except String String
  parseFloat : String → Option PyFloat
  fromUri : String → Except String Unit

/-- Python truthiness test `not groq_api_key` after `os.getenv` (lines 44-45,
61-62): true when the variable is unset or empty. -/
def keyMissing (o : Oracle) : Bool :=
  match o.apiKey with
  | none => true
  | some s => decide (s = "")

/-- Whitespace characters stripped by Python `str.strip()` (the ASCII ones;
the further Unicode space characters are not modelled). -/
def pySpace (c : Char) : Bool :=
  c == ' ' || c == '\t' || c == '\n' || c == '\r' || c == '\x0b' || c == '\x0c'

/-- Python `str.strip()` on a character list: drop whitespace from both ends. -/
def pyStripL (l : List Char) : List Char :=
  ((l.dropWhile pySpace).reverse.dropWhile pySpace).reverse

/-- Python `str.strip()` with no argument. -/
def pyStrip (s : String) : String :=
  String.mk (pyStripL s.data)

/-- Uppercase hexadecimal digit for a value below 16. -/
def hexChar (n : ℕ) : Char :=
  if n < 10 then Char.ofNat (48 + n) else Char.ofNat (55 + n)

/-- urllib.parse.quote_plus on one UTF-8 byte (given as a ℕ): alphanumerics
and `_ . - ~` are kept, a space becomes `+`, every other byte becomes %XX with
uppercase hex digits. -/
def quoteByte (n : ℕ) : String :=
  if (48 ≤ n ∧ n ≤ 57) ∨ (65 ≤ n ∧ n ≤ 90) ∨ (97 ≤ n ∧ n ≤ 122) ∨
      n = 95 ∨ n = 46 ∨ n = 45 ∨ n = 126 then
    String.singleton (Char.ofNat n)
  else if n = 32 then "+"
  else "%" ++ String.singleton (hexChar (n / 16)) ++ String.singleton (hexChar (n % 16))

/-- UTF-8 encoding of one code point, as the list of its byte values. -/
def utf8Encode (n : ℕ) : List ℕ :=
  if n < 128 then [n]
  else if n < 2048 then [192 + n / 64, 128 + n % 64]
  else if n < 65536 then [224 + n / 4096, 128 + (n / 64) % 64, 128 + n % 64]
  else [240 + n / 262144, 128 + (n / 4096) % 64, 128 + (n / 64) % 64, 128 + n % 64]

/-- urllib.parse.quote_plus (lines 17-18): percent-encode the UTF-8 bytes of
the string, keeping alphanumerics and `_ . - ~`, mapping spaces to `+`. -/
def quote_plus (s : String) : String :=
  String.join (((s.data.map (fun c => utf8Encode c.toNat)).flatten).map quoteByte)

/-- The connection string of line 19 with the credentials percent-encoded. -/
def db_uri (user password host : String) (port : ℤ) (database : String) : String :=
  "mysql+mysqlconnector://" ++ quote_plus user ++ ":" ++ quote_plus password ++ "@" ++
    host ++ ":" ++ toString port ++ "/" ++ database

/-- init_database (lines 16-23): build the percent-encoded connection string,
call SQLDatabase.from_uri on it, and re-raise any exception as
ConnectionError("Failed to connect to database: " + str(e)). -/
def init_database (fromUri : String → Except String Unit)
    (user password host : String) (port : ℤ) (database : String) :
    Except PyError Unit :=
  match fromUri (db_uri user password host port database) with
  | .ok h => .ok h
  | .error e => .error (.connectionError ("Failed to connect to database: " ++ e))

/-- Value of a nonempty all-digit character list; `none` otherwise. -/
def digitsToNat (l : List Char) : Option ℕ :=
  if l ≠ [] ∧ l.all Char.isDigit then
    some (l.foldl (fun a c => 10 * a + (c.toNat - 48)) 0)
  else none

/-- Python builtin `int()` on a string (line 150): surrounding whitespace is
stripped, then an optional sign followed by digits; `none` models ValueError.
(Underscore digit grouping is not modelled.) -/
def parseIntPy (s : String) : Option ℤ :=
  match pyStripL s.data with
  | '-' :: rest => (digitsToNat rest).map (fun n => -(n : ℤ))
  | '+' :: rest => (digitsToNat rest).map (fun n => (n : ℤ))
  | t => (digitsToNat t).map (fun n => (n : ℤ))

/-- get_sql_chain (lines 25-53): raise EnvironmentError when the key is unset,
otherwise yield the chain; invoking the chain with the question and chat
history sends the model a prompt built from `db.get_table_info()`, the history
and the question. -/
def get_sql_chain (o : Oracle) :
    Except PyError (String → List Msg → Except String String) :=
  if keyMissing o then
    .error (.environmentError "GROQ_API_KEY environment variable is not set.")
  else
    .ok (fun question chat_history => o.llmSql o.tableInfo chat_history question)

/-- calculate_hallucination_score (lines 55-90). Everything runs under a
`try/except Exception` returning 0.5, so the model is a total function; the
returned trace records the scoring model call when it is made. Unset key:
return 0.5 without calling the model. Model call raising: 0.5. `float()` on
the stripped reply failing: 0.5. Otherwise the parsed value clamped by
`min(max(score, 0), 1)`. -/
def calculate_hallucination_score (o : Oracle)
    (response query db_response : String) : List Event × PyFloat :=
  if keyMissing o then
    ([], .finite (mkRat 1 2))
  else
    match o.llmScore response query db_response with
    | .error _ =>
      ([Event.llmScoreCall response query db_response], .finite (mkRat 1 2))
    | .ok content =>
      match o.parseFloat (pyStrip content) with
      | none =>
        ([Event.llmScoreCall response query db_response], .finite (mkRat 1 2))
      | some score =>
        ([Event.llmScoreCall response query db_response],
          pyMin (pyMax score (.finite 0)) (.finite 1))

/-- Round a rational to an integer number of hundredths, ties to even: the
exact-rational model of Python's `.2f` rounding, computed on the numerator and
denominator (n is the floor of 100q and r/D its fractional part). -/
def round2 (q : ℚ) : ℤ :=
  let N : ℤ := 100 * q.num
  let D : ℤ := (q.den : ℤ)
  let n := Int.fdiv N D
  let r := N - D * n
  if 2 * r < D then n
  else if D < 2 * r then n + 1
  else if n % 2 = 0 then n else n + 1

/-- f-string rendering `{score:.2f}` (line 113) on the PyFloat model: nan and
the infinities render as Python prints them, a finite value with exactly two
decimal places. -/
def fmt2 : PyFloat → String
  | .nan => "nan"
  | .inf => "inf"
  | .ninf => "-inf"
  | .finite q =>
    let c := round2 q
    let a := c.natAbs
    (if c < 0 then "-" else "") ++ toString (a / 100) ++ "." ++
      (if a % 100 < 10 then "0" else "") ++ toString (a % 100)

/-- The qualitative label appended to the reply (lines 115-120): a chain of
`<` comparisons against 0.3 and 0.7. -/
def scoreLabel (s : PyFloat) : String :=
  if pyLt s (.finite (mkRat 3 10)) then "(Low - Highly Reliable)"
  else if pyLt s (.finite (mkRat 7 10)) then "(Medium - Some Interpretation)"
  else "(High - Potential Inaccuracies)"

/-- The formatted reply of lines 113-120: the raw db response, a separator,
the score rendered to two decimals over /1.0, and the qualitative label. -/
def formatResponse (db_response : String) (s : PyFloat) : String :=
  db_response ++ "\n\n---\n\n*Hallucination Score*: " ++ fmt2 s ++ "/1.0 " ++
    scoreLabel s

/-- get_response (lines 92-122): build the SQL chain (which checks the key),
invoke it, run the returned text against the database unvalidated, score, and
format. The first component is the trace of external calls in order; the
second is the reply or the exception that escapes get_response. -/
def get_response (o : Oracle) (user_query : String) (chat_history : List Msg) :
    List Event × Except PyError String :=
  match get_sql_chain o with
  | .error e => ([], .error e)
  | .ok chain =>
    match chain user_query chat_history with
    | .error m =>
      ([Event.llmSqlCall o.tableInfo chat_history user_query], .error (.other m))
    | .ok sql_query =>
      match o.dbRun sql_query with
      | .error m =>
        ([Event.llmSqlCall o.tableInfo chat_history user_query,
          Event.dbRunCall sql_query], .error (.other m))
      | .ok db_response =>
        let h := calculate_hallucination_score o sql_query user_query db_response
        ([Event.llmSqlCall o.tableInfo chat_history user_query,
          Event.dbRunCall sql_query] ++ h.1,
          .ok (formatResponse db_response h.2))

/-- Streamlit session state: the transcript and the connected database handle
(present after a successful Connect, absent before). -/
structure SessionState where
  chat_history : List Msg
  db : Option Unit
deriving DecidableEq, Repr

/-- Lines 125-128: the session state at session start, the transcript seeded
with one assistant greeting and no database connected. -/
def initialState : SessionState :=
  { chat_history :=
      [Msg.ai "Hello! I\x27m a SQL assistant. Ask me anything about your database."],
    db := none }

/-- Outcome rendered by the Connect handler: st.success or st.error text. -/
inductive ConnectOutcome where
  | success
  | failure (msg : String)
deriving DecidableEq, Repr

/-- Lines 143-156, the Connect button handler: evaluate `int(Port)` (ValueError
on a non-numeric port), call init_database, store the handle on success, and
catch every exception into an st.error string. -/
def connectClicked (o : Oracle) (st : SessionState)
    (user password host portText database : String) :
    SessionState × ConnectOutcome :=
  match parseIntPy portText with
  | none =>
    (st, .failure ("Failed to connect to the database: " ++
      "invalid literal for int() with base 10: \x27" ++ portText ++ "\x27"))
  | some port =>
    match init_database o.fromUri user password host port database with
    | .ok h => ({ st with db := some h }, .success)
    | .error e => (st, .failure ("Failed to connect to the database: " ++ e.str))

/-- Lines 168-185, one rerun's chat-input handling. `user_query` is the chat
input (`none` when no message was submitted). Returns the updated session
state, the trace of external calls, and the exception escaping the turn, if
any. When the input is truthy after strip, the user turn is appended first
(line 170); with a database connected, get_response runs inside try/except and
its reply or the inline error string is appended (lines 175-185); with no
database connected, st.error is shown inside the try, but line 185 then reads
the never-assigned name `response`, so a NameError escapes the turn. -/
def handleTurn (o : Oracle) (st : SessionState) (user_query : Option String) :
    SessionState × List Event × Option PyError :=
  match user_query with
  | none => (st, [], none)
  | some q =>
    if pyStrip q = "" then (st, [], none)
    else
      let st1 := { st with chat_history := st.chat_history ++ [Msg.human q] }
      match st.db with
      | none =>
        (st1, [], some (.nameError "name \x27response\x27 is not defined"))
      | some _ =>
        let r := get_response o q st1.chat_history
        let response :=
          match r.2 with
          | .ok resp => resp
          | .error e => "An error occurred: " ++ e.str
        ({ st1 with chat_history := st1.chat_history ++ [Msg.ai response] },
          r.1, none)

/-
Concrete instances of the external world, used by witnesses and
counterexamples. Each stipulates oracle behaviour on the inputs a run
actually exercises, in a way the real services and Python's `float()` can
exhibit: in particular `float` applied to the strings "nan" / "NaN" yields
the IEEE nan value, and `float` raises ValueError on non-numeric text.
-/

/-- A working world: key set, the model answering a fixed SQL statement and
the score text " 0.9 " (value 9/10 after strip and parse), the database
returning a fixed result. -/
def oGood : Oracle :=
  { apiKey := some "gsk_test",
    tableInfo := "CREATE TABLE students (name TEXT)",
    llmSql := fun _ _ _ => .ok "SELECT 1",
    dbRun := fun _ => .ok "dresp",
    llmScore := fun _ _ _ => .ok " 0.9 ",
    parseFloat := fun s => if s = "0.9" then some (.finite (mkRat 9 10)) else none,
    fromUri := fun _ => .ok () }

/-- A world with the GROQ_API_KEY environment variable unset. -/
def oNoKey : Oracle :=
  { apiKey := none,
    tableInfo := "",
    llmSql := fun _ _ _ => .ok "SELECT 1",
    dbRun := fun _ => .ok "dresp",
    llmScore := fun _ _ _ => .ok "0.5",
    parseFloat := fun _ => none,
    fromUri := fun _ => .ok () }

/-- A world in which the scoring model replies " nan ": Python
`float("nan")` is the IEEE nan value. -/
def oNanReply : Oracle :=
  { apiKey := some "gsk_test",
    tableInfo := "t",
    llmSql := fun _ _ _ => .ok "SELECT name FROM students",
    dbRun := fun _ => .ok "[(Alice,)]",
    llmScore := fun _ _ _ => .ok " nan ",
    parseFloat := fun s => if s = "nan" then some .nan else none,
    fromUri := fun _ => .ok () }

/-- A world in which the scoring model replies "NaN" (also accepted by
Python `float()` as nan). -/
def oNanReply2 : Oracle :=
  { apiKey := some "gsk_test",
    tableInfo := "t",
    llmSql := fun _ _ _ => .ok "SELECT 2",
    dbRun := fun _ => .ok "[]",
    llmScore := fun _ _ _ => .ok "NaN",
    parseFloat := fun s => if s = "NaN" then some .nan else none,
    fromUri := fun _ => .ok () }

/-- A world in which the scoring model replies with text `float()` rejects. -/
def oFailParse : Oracle :=
  { apiKey := some "gsk_test",
    tableInfo := "t",
    llmSql := fun _ _ _ => .ok "SELECT 3",
    dbRun := fun _ => .ok "[]",
    llmScore := fun _ _ _ => .ok "I cannot rate this",
    parseFloat := fun _ => none,
    fromUri := fun _ => .ok () }

/-- A world in which executing the generated SQL raises. -/
def oDbErr : Oracle :=
  { apiKey := some "gsk_test",
    tableInfo := "t",
    llmSql := fun _ _ _ => .ok "SELECT x FROM missing_table",
    dbRun := fun _ => .error "Table student_db.missing_table does not exist",
    llmScore := fun _ _ _ => .ok "0.5",
    parseFloat := fun _ => none,
    fromUri := fun _ => .ok () }

/-- A driver that raises on every connection string. -/
def fromUriBad : String → Except String Unit :=
  fun _ => .error "Access denied"

/-- Session state right after a successful Connect: seeded transcript, a
database handle present. -/
def stConn : SessionState :=
  { chat_history := initialState.chat_history, db := some () }

/-- Session state before any Connect: the initial state. -/
def stNoDb : SessionState :=
  initialState

/-
Helper lemmas shared by the claim theorems.
-/

/-- The clamp `min(max(v, 0), 1)` maps nan to nan. -/
lemma clamp_nan : pyMin (pyMax PyFloat.nan (.finite 0)) (.finite 1) = PyFloat.nan := by
  decide

/-- The clamp `min(max(v, 0), 1)` lands in [0, 1] for every non-nan value. -/
lemma clamp_inUnit (v : PyFloat) (h : v ≠ PyFloat.nan) :
    inUnitB (pyMin (pyMax v (.finite 0)) (.finite 1)) = true := by
  cases v with
  | nan => exact absurd rfl h
  | inf => decide
  | ninf => decide
  | finite q =>
    by_cases h0 : q < 0
    · have hmax : pyMax (.finite q) (.finite 0) = .finite 0 := by
        simp [pyMax, pyLt, h0]
      rw [hmax]; decide
    · have hmax : pyMax (.finite q) (.finite 0) = .finite q := by
        simp [pyMax, pyLt, h0]
      rw [hmax]
      by_cases h1 : (1 : ℚ) < q
      · have hmin : pyMin (.finite q) (.finite 1) = .finite 1 := by
          simp [pyMin, pyLt, h1]
        rw [hmin]; decide
      · have hmin : pyMin (.finite q) (.finite 1) = .finite q := by
          simp [pyMin, pyLt, h1]
        rw [hmin]
        simp only [inUnitB, Bool.and_eq_true, decide_eq_true_eq]
        exact ⟨le_of_not_lt h0, le_of_not_lt h1⟩

/-- One half is in [0, 1]. -/
lemma inUnitB_half : inUnitB (.finite (mkRat 1 2)) = true := by decide

/-- The score reported by calculate_hallucination_score is nan only when the
parsed model reply was nan, in which case the clamp passed it through. -/
lemma calc_score_cases (o : Oracle) (r q d : String) :
    (calculate_hallucination_score o r q d).2 = .finite (mkRat 1 2) ∨
    ∃ c v, o.llmScore r q d = .ok c ∧ o.parseFloat (pyStrip c) = some v ∧
      (calculate_hallucination_score o r q d).2 =
        pyMin (pyMax v (.finite 0)) (.finite 1) := by
  unfold calculate_hallucination_score
  by_cases hk : keyMissing o
  · simp [hk]
  · simp only [hk, Bool.false_eq_true, if_false]
    cases hsc : o.llmScore r q d with
    | error m => simp
    | ok c =>
      cases hp : o.parseFloat (pyStrip c) with
      | none => simp [hp]
      | some v => exact Or.inr ⟨c, v, rfl, hp, by simp [hp]⟩

/-- With the key present, calculate_hallucination_score makes exactly one
scoring model call. -/
lemma calc_events (o : Oracle) (r q d : String) (hk : keyMissing o = false) :
    (calculate_hallucination_score o r q d).1 = [Event.llmScoreCall r q d] := by
  unfold calculate_hallucination_score
  simp only [hk, Bool.false_eq_true, if_false]
  cases o.llmScore r q d with
  | error m => simp
  | ok c =>
    cases hp : o.parseFloat (pyStrip c) <;> simp [hp]

/-- With the key missing, calculate_hallucination_score returns 0.5. -/
lemma calc_noKey (o : Oracle) (r q d : String) (hk : keyMissing o = true) :
    calculate_hallucination_score o r q d = ([], .finite (mkRat 1 2)) := by
  unfold calculate_hallucination_score
  simp [hk]

/-
Claim theorems.
-/

/-- C10: submitting an empty or whitespace-only chat input (and equally
submitting nothing) leaves the session state unchanged, appends nothing to
the transcript, and makes no model or database call. -/
theorem c10_blank_input_no_effect (o : Oracle) (st : SessionState) (q : String)
    (hq : pyStrip q = "") :
    handleTurn o st (some q) = (st, [], none) ∧
    handleTurn o st none = (st, [], none) := by
  constructor
  · simp [handleTurn, hq]
  · rfl

/-- C10 witness: a whitespace-only input on a connected session is a no-op. -/
theorem c10_blank_input_no_effect_witness :
    handleTurn oGood stConn (some "   ") = (stConn, [], none) ∧
    handleTurn oGood stConn none = (stConn, [], none) :=
  c10_blank_input_no_effect oGood stConn "   " (by decide)

/-- C7: the transcript starts as exactly one assistant greeting and every turn
only appends to it (the existing entries are never removed, modified or
reordered). The claimed shape "one user turn followed by one assistant
reply", however, fails when no database is connected: the user turn is
appended, st.error is rendered, and line 185 then reads the never-assigned
`response`, so the turn dies with a NameError before any assistant reply is
appended. The last two conjuncts evaluate the code at that failing input. -/
theorem c7_transcript_append_only :
    initialState.chat_history =
      [Msg.ai "Hello! I\x27m a SQL assistant. Ask me anything about your database."] ∧
    (∀ (o : Oracle) (st : SessionState) (q : Option String),
      ∃ tail, (handleTurn o st q).1.chat_history = st.chat_history ++ tail) ∧
    (handleTurn oGood stNoDb (some "hi")).1.chat_history =
      stNoDb.chat_history ++ [Msg.human "hi"] ∧
    (handleTurn oGood stNoDb (some "hi")).2.2 =
      some (PyError.nameError "name \x27response\x27 is not defined") := by
  refine ⟨rfl, ?_, by decide, by decide⟩
  intro o st q
  cases q with
  | none => exact ⟨[], by simp [handleTurn]⟩
  | some q =>
    by_cases hq : pyStrip q = ""
    · exact ⟨[], by simp [handleTurn, hq]⟩
    · cases hdb : st.db with
      | none => exact ⟨[Msg.human q], by simp [handleTurn, hq, hdb]⟩
      | some u =>
        cases hre : (get_response o q (st.chat_history ++ [Msg.human q])).2 with
        | ok resp =>
          exact ⟨[Msg.human q, Msg.ai resp],
            by simp [handleTurn, hq, hdb, hre]⟩
        | error e =>
          exact ⟨[Msg.human q, Msg.ai ("An error occurred: " ++ e.str)],
            by simp [handleTurn, hq, hdb, hre]⟩

/-- C1 counterexample: with GROQ_API_KEY unset and a database connected, a
turn does not produce a formatted reply carrying score 0.5. The trace is
empty — get_sql_chain raises EnvironmentError before any model or database
call, so no step of answering completes — and the appended assistant reply is
the inline error string, not a formatted reply (which by construction would
carry the text "*Hallucination Score*: 0.50/1.0 "). -/
theorem c1_missing_key_counterexample :
    keyMissing oNoKey = true ∧
    (handleTurn oNoKey stConn (some "How many students are there?")).2.1 = [] ∧
    (handleTurn oNoKey stConn (some "How many students are there?")).1.chat_history =
      stConn.chat_history ++ [Msg.human "How many students are there?",
        Msg.ai "An error occurred: GROQ_API_KEY environment variable is not set."] ∧
    (handleTurn oNoKey stConn (some "How many students are there?")).2.2 = none := by
  decide

/-- C1 (amended): with GROQ_API_KEY unset and a database connected, the turn
does not crash, but it does not degrade to the 0.5 score either: get_sql_chain
raises EnvironmentError, the handler catches it, no model or database call is
made, and the assistant reply appended is the inline error string. Only
calculate_hallucination_score itself — when reached with the key unset —
degrades to the default score 0.5. -/
theorem c1_missing_key_amended (o : Oracle) (st : SessionState) (q : String)
    (hk : keyMissing o = true) (hdb : st.db = some ()) (hq : pyStrip q ≠ "") :
    (handleTurn o st (some q)).1.chat_history =
      st.chat_history ++ [Msg.human q,
        Msg.ai "An error occurred: GROQ_API_KEY environment variable is not set."] ∧
    (handleTurn o st (some q)).1.db = st.db ∧
    (handleTurn o st (some q)).2.1 = [] ∧
    (handleTurn o st (some q)).2.2 = none ∧
    (∀ r qq d, (calculate_hallucination_score o r qq d).2 = .finite (mkRat 1 2)) := by
  refine ⟨?_, ?_, ?_, ?_, fun r qq d => by rw [calc_noKey o r qq d hk]⟩ <;>
    simp [handleTurn, get_response, get_sql_chain, hk, hdb, hq, PyError.str]

/-- C1 witness: the amended behaviour at a concrete no-key world. -/
theorem c1_missing_key_witness :
    (handleTurn oNoKey stConn (some "list the students")).1.chat_history =
      stConn.chat_history ++ [Msg.human "list the students",
        Msg.ai "An error occurred: GROQ_API_KEY environment variable is not set."] ∧
    (calculate_hallucination_score oNoKey "r" "q" "d").2 = .finite (mkRat 1 2) :=
  ⟨(c1_missing_key_amended oNoKey stConn "list the students"
      (by decide) (by decide) (by decide)).1,
   (c1_missing_key_amended oNoKey stConn "list the students"
      (by decide) (by decide) (by decide)).2.2.2.2 "r" "q" "d"⟩

/-- C2: every failure inside answering (missing API key, malformed model
output, SQL execution error — everything get_response can raise) is caught by
the turn handler and converted to an inline error string appended as the
assistant reply, and with a database connected no exception escapes the turn.
The claim's final clause fails, however, on a turn with no database
connected: st.error is rendered and then line 185 reads the never-assigned
`response`, so a NameError escapes the turn. The last conjunct evaluates the
code at that failing input. -/
theorem c2_failures_caught :
    (∀ (o : Oracle) (st : SessionState) (q : Option String),
      st.db = some () → (handleTurn o st q).2.2 = none) ∧
    (∀ (o : Oracle) (st : SessionState) (q : String) (e : PyError),
      st.db = some () → pyStrip q ≠ "" →
      (get_response o q (st.chat_history ++ [Msg.human q])).2 = .error e →
      (handleTurn o st (some q)).1.chat_history =
        st.chat_history ++ [Msg.human q,
          Msg.ai ("An error occurred: " ++ e.str)]) ∧
    (handleTurn oGood stNoDb (some "list students")).2.2 =
      some (PyError.nameError "name \x27response\x27 is not defined") := by
  refine ⟨?_, ?_, by decide⟩
  · intro o st q hdb
    cases q with
    | none => rfl
    | some q =>
      by_cases hq : pyStrip q = ""
      · simp [handleTurn, hq]
      · simp [handleTurn, hq, hdb]
  · intro o st q e hdb hq herr
    simp [handleTurn, hq, hdb, herr]

/-- C2 witness: concrete instances — a turn on a connected session never
escapes, and a SQL execution error becomes the inline error reply. -/
theorem c2_failures_caught_witness :
    (handleTurn oDbErr stConn (some "show the missing table")).2.2 = none ∧
    (handleTurn oDbErr stConn (some "show the missing table")).1.chat_history =
      stConn.chat_history ++ [Msg.human "show the missing table",
        Msg.ai "An error occurred: Table student_db.missing_table does not exist"] :=
  ⟨c2_failures_caught.1 oDbErr stConn (some "show the missing table") (by decide),
   c2_failures_caught.2.1 oDbErr stConn "show the missing table"
      (PyError.other "Table student_db.missing_table does not exist")
      (by decide) (by decide) (by decide)⟩

/-- C3 counterexample: when the scoring model replies " nan " (Python
`float("nan")` is the IEEE nan, and `min(max(nan, 0), 1)` keeps nan), the
score used in the formatted reply is nan, which does not lie in [0, 1]. -/
theorem c3_score_in_unit_counterexample :
    (calculate_hallucination_score oNanReply "SELECT name FROM students" "q"
      "[(Alice,)]").2 = PyFloat.nan ∧
    pyMin (pyMax PyFloat.nan (.finite 0)) (.finite 1) = PyFloat.nan ∧
    inUnitB PyFloat.nan = false ∧
    (get_response oNanReply "q" []).2 =
      .ok (formatResponse "[(Alice,)]" PyFloat.nan) := by
  decide

/-- C3 (amended): any failure to obtain or parse a score (missing key, model
call raising, `float()` rejecting the reply) yields exactly 0.5; a parsed
score is clamped with min/max, and the score used lies in [0, 1] in every
case except a reply parsing to nan, which passes through the clamp and is
used as-is. -/
theorem c3_score_in_unit_amended (o : Oracle) (r q d : String) :
    ((calculate_hallucination_score o r q d).2 ≠ PyFloat.nan →
      inUnitB (calculate_hallucination_score o r q d).2 = true) ∧
    (keyMissing o = true →
      (calculate_hallucination_score o r q d).2 = .finite (mkRat 1 2)) ∧
    (∀ m, o.llmScore r q d = .error m →
      (calculate_hallucination_score o r q d).2 = .finite (mkRat 1 2)) ∧
    (∀ c, o.llmScore r q d = .ok c → o.parseFloat (pyStrip c) = none →
      (calculate_hallucination_score o r q d).2 = .finite (mkRat 1 2)) ∧
    (∀ c v, keyMissing o = false → o.llmScore r q d = .ok c →
      o.parseFloat (pyStrip c) = some v →
      (calculate_hallucination_score o r q d).2 =
        pyMin (pyMax v (.finite 0)) (.finite 1)) := by
  refine ⟨?_, ?_, ?_, ?_, ?_⟩
  · intro hnn
    rcases calc_score_cases o r q d with h | ⟨c, v, hc, hv, h⟩
    · rw [h]; exact inUnitB_half
    · rw [h]
      refine clamp_inUnit v ?_
      intro hveq
      rw [hveq] at h
      rw [h, clamp_nan] at hnn
      exact hnn rfl
  · intro hk
    rw [calc_noKey o r q d hk]
  · intro m hm
    unfold calculate_hallucination_score
    by_cases hk : keyMissing o
    · simp [hk]
    · simp [hk, hm]
  · intro c hc hp
    unfold calculate_hallucination_score
    by_cases hk : keyMissing o
    · simp [hk]
    · simp [hk, hc, hp]
  · intro c v hk hc hv
    unfold calculate_hallucination_score
    simp [hk, hc, hv]

/-- C3 witness: a parse failure yields exactly 0.5, which is in [0, 1]. -/
theorem c3_score_in_unit_witness :
    inUnitB (calculate_hallucination_score oFailParse "r" "q" "d").2 = true ∧
    (calculate_hallucination_score oFailParse "r" "q" "d").2 = .finite (mkRat 1 2) :=
  ⟨(c3_score_in_unit_amended oFailParse "r" "q" "d").1 (by decide),
   (c3_score_in_unit_amended oFailParse "r" "q" "d").2.2.2.1
      "I cannot rate this" (by decide) (by decide)⟩

/-- C9 counterexample: calculate_hallucination_score is total and never
raises, but does not always return a value in [0, 1]: a model reply parsing
to nan (Python accepts the spelling "NaN") is returned as nan. -/
theorem c9_total_counterexample :
    (calculate_hallucination_score oNanReply2 "resp" "query" "dbresp").2 =
      PyFloat.nan ∧
    inUnitB PyFloat.nan = false := by
  decide

/-- C9 (amended): calculate_hallucination_score is total — it returns a value
for every combination of inputs and every oracle behaviour, including a
raising model call — and that value is either exactly 0.5 or the clamp
`min(max(v, 0), 1)` of the parsed reply v; it lies in [0, 1] whenever it is
not nan, and it is nan only when the parsed reply was nan. -/
theorem c9_total_amended (o : Oracle) (r q d : String) :
    ((calculate_hallucination_score o r q d).2 = .finite (mkRat 1 2) ∨
      ∃ c v, o.llmScore r q d = .ok c ∧ o.parseFloat (pyStrip c) = some v ∧
        (calculate_hallucination_score o r q d).2 =
          pyMin (pyMax v (.finite 0)) (.finite 1)) ∧
    ((calculate_hallucination_score o r q d).2 ≠ PyFloat.nan →
      inUnitB (calculate_hallucination_score o r q d).2 = true) := by
  refine ⟨calc_score_cases o r q d, ?_⟩
  intro hnn
  rcases calc_score_cases o r q d with h | ⟨c, v, hc, hv, h⟩
  · rw [h]; exact inUnitB_half
  · rw [h]
    refine clamp_inUnit v ?_
    intro hveq
    rw [hveq] at h
    rw [h, clamp_nan] at hnn
    exact hnn rfl

/-- C9 witness: at a working world the score is in [0, 1]. -/
theorem c9_total_witness :
    inUnitB (calculate_hallucination_score oGood "r" "q" "d").2 = true :=
  (c9_total_amended oGood "r" "q" "d").2 (by decide)

/-- C4: when the pipeline completes, the reply returned for the turn is the
raw database result text, a separator, the score rendered to two decimals
over /1.0, and a qualitative label; for a numeric score x the label is
"(Low - Highly Reliable)" when x < 0.3, "(Medium - Some Interpretation)" when
0.3 <= x < 0.7, and "(High - Potential Inaccuracies)" when 0.7 <= x. -/
theorem c4_reply_format (o : Oracle) (q : String) (hist : List Msg)
    (sql d : String)
    (hk : keyMissing o = false)
    (hsql : o.llmSql o.tableInfo hist q = .ok sql)
    (hdb : o.dbRun sql = .ok d) :
    (get_response o q hist).2 =
      .ok (d ++ "\n\n---\n\n*Hallucination Score*: " ++
        fmt2 (calculate_hallucination_score o sql q d).2 ++ "/1.0 " ++
        scoreLabel (calculate_hallucination_score o sql q d).2) ∧
    (∀ x : ℚ,
      (x < mkRat 3 10 → scoreLabel (.finite x) = "(Low - Highly Reliable)") ∧
      (mkRat 3 10 ≤ x → x < mkRat 7 10 →
        scoreLabel (.finite x) = "(Medium - Some Interpretation)") ∧
      (mkRat 7 10 ≤ x →
        scoreLabel (.finite x) = "(High - Potential Inaccuracies)")) := by
  constructor
  · simp [get_response, get_sql_chain, hk, hsql, hdb, formatResponse]
  · intro x
    refine ⟨?_, ?_, ?_⟩
    · intro hx
      simp [scoreLabel, pyLt, hx]
    · intro h3 h7
      simp [scoreLabel, pyLt, not_lt.mpr h3, h7]
    · intro h7
      have h37 : mkRat 3 10 ≤ x :=
        le_trans (by decide : mkRat 3 10 ≤ mkRat 7 10) h7
      simp [scoreLabel, pyLt, not_lt.mpr h7, not_lt.mpr h37]

/-- C4 witness: a concrete completed turn, with score 0.9 labelled High. -/
theorem c4_reply_format_witness :
    (get_response oGood "q" []).2 =
      .ok ("dresp" ++ "\n\n---\n\n*Hallucination Score*: " ++
        fmt2 (calculate_hallucination_score oGood "SELECT 1" "q" "dresp").2 ++
        "/1.0 " ++
        scoreLabel (calculate_hallucination_score oGood "SELECT 1" "q" "dresp").2) ∧
    scoreLabel (.finite (mkRat 9 10)) = "(High - Potential Inaccuracies)" :=
  ⟨(c4_reply_format oGood "q" [] "SELECT 1" "dresp"
      (by decide) (by decide) (by decide)).1,
   ((c4_reply_format oGood "q" [] "SELECT 1" "dresp"
      (by decide) (by decide) (by decide)).2 (mkRat 9 10)).2.2 (by decide)⟩

/-- C5: a connect attempt never raises past the UI boundary. The handler
always yields either a success or an error string; a non-numeric port (int()
raising ValueError) yields an error string and leaves the state unchanged;
and any exception from building or opening the connection yields an error
string wrapping the ConnectionError message and leaves the state unchanged. -/
theorem c5_connect_never_raises (o : Oracle) (st : SessionState)
    (u pw h pt d : String) :
    ((connectClicked o st u pw h pt d).2 = ConnectOutcome.success ∨
      ∃ m, (connectClicked o st u pw h pt d).2 = ConnectOutcome.failure m) ∧
    (parseIntPy pt = none →
      connectClicked o st u pw h pt d =
        (st, ConnectOutcome.failure ("Failed to connect to the database: " ++
          "invalid literal for int() with base 10: \x27" ++ pt ++ "\x27"))) ∧
    (∀ p m, parseIntPy pt = some p →
      o.fromUri (db_uri u pw h p d) = .error m →
      connectClicked o st u pw h pt d =
        (st, ConnectOutcome.failure ("Failed to connect to the database: " ++
          ("Failed to connect to database: " ++ m)))) := by
  refine ⟨?_, ?_, ?_⟩
  · cases hpt : parseIntPy pt with
    | none =>
      exact Or.inr ⟨"Failed to connect to the database: " ++
        "invalid literal for int() with base 10: \x27" ++ pt ++ "\x27",
        by simp [connectClicked, hpt]⟩
    | some p =>
      cases hf : o.fromUri (db_uri u pw h p d) with
      | ok v =>
        exact Or.inl (by simp [connectClicked, hpt, init_database, hf])
      | error m =>
        exact Or.inr ⟨"Failed to connect to the database: " ++
          ("Failed to connect to database: " ++ m),
          by simp [connectClicked, hpt, init_database, hf, PyError.str]⟩
  · intro hpt
    simp [connectClicked, hpt]
  · intro p m hpt hf
    simp [connectClicked, hpt, init_database, hf, PyError.str]

/-- C5 witness: a non-numeric port and a refused connection both render as
error strings with the state unchanged. -/
theorem c5_connect_never_raises_witness :
    connectClicked oGood stNoDb "root" "pw" "localhost" "330x" "student_db" =
      (stNoDb, ConnectOutcome.failure ("Failed to connect to the database: " ++
        "invalid literal for int() with base 10: \x27330x\x27")) ∧
    connectClicked { oGood with fromUri := fromUriBad } stNoDb
        "root" "pw" "localhost" "3306" "student_db" =
      (stNoDb, ConnectOutcome.failure ("Failed to connect to the database: " ++
        ("Failed to connect to database: " ++ "Access denied"))) :=
  ⟨(c5_connect_never_raises oGood stNoDb "root" "pw" "localhost" "330x"
      "student_db").2.1 (by decide),
   (c5_connect_never_raises { oGood with fromUri := fromUriBad } stNoDb
      "root" "pw" "localhost" "3306" "student_db").2.2 3306 "Access denied"
      (by decide) (by decide)⟩

/-- C6: init_database builds the connection string with the user and password
percent-encoded, passes exactly that string to the driver, returns the live
handle on success, and re-raises every underlying failure as a
ConnectionError wrapping the underlying message. The last conjunct checks the
percent-encoding on a credential containing `@`, a space and `#`. -/
theorem c6_init_database_contract (f : String → Except String Unit)
    (u pw host : String) (p : ℤ) (d : String) :
    (∀ e, init_database f u pw host p d = .error e →
      ∃ m, e = PyError.connectionError ("Failed to connect to database: " ++ m) ∧
        f (db_uri u pw host p d) = .error m) ∧
    (∀ h, init_database f u pw host p d = .ok h →
      f (db_uri u pw host p d) = .ok h) ∧
    db_uri u pw host p d =
      "mysql+mysqlconnector://" ++ quote_plus u ++ ":" ++ quote_plus pw ++ "@" ++
        host ++ ":" ++ toString p ++ "/" ++ d ∧
    quote_plus "ro@ot us#er" = "ro%40ot+us%23er" := by
  refine ⟨?_, ?_, rfl, by decide⟩
  · intro e he
    unfold init_database at he
    cases hf : f (db_uri u pw host p d) with
    | ok v =>
      simp [hf] at he
    | error m =>
      refine ⟨m, ?_, rfl⟩
      simp [hf] at he
      exact he.symm
  · intro h he
    unfold init_database at he
    cases hf : f (db_uri u pw host p d) with
    | ok v =>
      rfl
    | error m =>
      simp [hf] at he

/-- C6 witness: a refused connection at a concrete driver becomes a
ConnectionError wrapping the driver message. -/
theorem c6_init_database_contract_witness :
    ∃ m, PyError.connectionError "Failed to connect to database: Access denied" =
      PyError.connectionError ("Failed to connect to database: " ++ m) ∧
      fromUriBad (db_uri "root" "p w" "localhost" 3306 "student_db") = .error m :=
  (c6_init_database_contract fromUriBad "root" "p w" "localhost" 3306
    "student_db").1
    (PyError.connectionError "Failed to connect to database: Access denied")
    (by decide)

/-- C8: when every step succeeds, answering a turn performs exactly this
sequence of external calls: the SQL-generation model call conditioned on the
schema text and the transcript, then execution of exactly the text the model
returned (no validation between), then the scoring model call whose inputs
include the raw query result, and finally the formatted reply is returned. -/
theorem c8_turn_sequence (o : Oracle) (q : String) (hist : List Msg)
    (sql d : String)
    (hk : keyMissing o = false)
    (hsql : o.llmSql o.tableInfo hist q = .ok sql)
    (hdb : o.dbRun sql = .ok d) :
    (get_response o q hist).1 =
      [Event.llmSqlCall o.tableInfo hist q, Event.dbRunCall sql,
        Event.llmScoreCall sql q d] ∧
    (get_response o q hist).2 =
      .ok (formatResponse d (calculate_hallucination_score o sql q d).2) := by
  constructor
  · simp [get_response, get_sql_chain, hk, hsql, hdb, calc_events o sql q d hk]
  · simp [get_response, get_sql_chain, hk, hsql, hdb]

/-- C8 witness: the three calls in order at a concrete working world. -/
theorem c8_turn_sequence_witness :
    (get_response oGood "q" []).1 =
      [Event.llmSqlCall oGood.tableInfo [] "q", Event.dbRunCall "SELECT 1",
        Event.llmScoreCall "SELECT 1" "q" "dresp"] ∧
    (get_response oGood "q" []).2 =
      .ok (formatResponse "dresp"
        (calculate_hallucination_score oGood "SELECT 1" "q" "dresp").2) :=
  c8_turn_sequence oGood "q" [] "SELECT 1" "dresp"
    (by decide) (by decide) (by decide)
